import Mathlib

/-!
Shallow embedding of the Mario platformer core (`app.py`, `player.py`).

Python floats are modelled as `Rat` (all arithmetic the code performs on
them — adding small integer constants — is exact in both). Wall-clock
values returned by `time.time()` are threaded through explicitly as `Rat`
arguments named `now`. A Python attribute that may be read before it was
ever assigned (raising `AttributeError`) is modelled as an `Option` field
that starts as `none`; an operation that would raise returns `none`.
-/

namespace Mario

/-- `BLOCK_SIZE = 2 ** 4` from `app.py`. -/
def BLOCK_SIZE : Int := 2 ^ 4

/-- State of a `Player` (`player.py`). Fields `name`, `score`, `health`,
`invincible`, `passFlag` (`_pass`), `ducking`, `onSwitch` (`_switch`) and
the lazily-assigned `startTime` (`_start_time`) come from `Player` itself;
`maxHealth`, `velocity` and `jumping` live in the `DynamicEntity` base class
(external `game.entity`), modelled from the spec (§3: DynamicEntity adds
velocity and jump flags; max_health is passed to `super().__init__`). -/
structure Player where
  name : String
  maxHealth : Rat
  score : Rat
  health : Rat
  invincible : Bool
  passFlag : Bool
  ducking : Bool
  onSwitch : Bool
  startTime : Option Rat
  velocity : Rat × Rat
  jumping : Bool
  deriving DecidableEq, Repr

/-- `Player.__init__(name, max_health)`: health starts at max, all flags
false, `_start_time` never assigned. -/
def mkPlayer (name : String) (maxHealth : Rat) : Player :=
  { name := name, maxHealth := maxHealth, score := 0, health := maxHealth,
    invincible := false, passFlag := false, ducking := false,
    onSwitch := false, startTime := none, velocity := (0, 0),
    jumping := false }

/-- `Player.change_score`. -/
def Player.change_score (p : Player) (change : Rat) : Player :=
  { p with score := p.score + change }

/-- `Player.set_health`: assigns the given value directly. -/
def Player.set_health (p : Player) (health : Rat) : Player :=
  { p with health := health }

/-- `Player.is_invincible`. -/
def Player.is_invincible (p : Player) : Bool :=
  p.invincible

/-- `Player.change_health`: adds `change` unless the player is invincible,
in which case it does nothing. -/
def Player.change_health (p : Player) (change : Rat) : Player :=
  if ¬ p.is_invincible then { p with health := p.health + change } else p

/-- `Player.change_invincibility`: `self._invincible = self._pass = invincible`. -/
def Player.change_invincibility (p : Player) (invincible : Bool) : Player :=
  { p with invincible := invincible, passFlag := invincible }

/-- `Player.get_time(now)`: if `_pass` is set, clear it and stamp
`_start_time := now`; return `_start_time` (which is `none` exactly when
the Python code would raise `AttributeError`). -/
def Player.get_time (p : Player) (now : Rat) : Option Rat × Player :=
  if p.passFlag then
    (some now, { p with passFlag := false, startTime := some now })
  else
    (p.startTime, p)

/-- `Player.set_ducking`. -/
def Player.set_ducking (p : Player) (ducking : Bool) : Player :=
  { p with ducking := ducking }

/-- `Player.set_on_switch`. -/
def Player.set_on_switch (p : Player) (onSwitch : Bool) : Player :=
  { p with onSwitch := onSwitch }

/-- `DynamicEntity.set_velocity` (base class setter used by the handlers). -/
def Player.set_velocity (p : Player) (v : Rat × Rat) : Player :=
  { p with velocity := v }

/-- `DynamicEntity.set_jumping` (base class setter used by the handlers). -/
def Player.set_jumping (p : Player) (b : Bool) : Player :=
  { p with jumping := b }

/-- `Star.collect(player)` from `app.py`: `player.change_invincibility(True)`. -/
def Star.collect (player : Player) : Player :=
  player.change_invincibility true

/-- State of a `Mob`: its id string and its signed `tempo` (held by the
external `game.mob` base class, accessed through `get_tempo`/`set_tempo`). -/
structure Mob where
  id : String
  tempo : Int
  deriving DecidableEq, Repr

/-- `MushroomMob.reverse`: `self.set_tempo(-self.get_tempo())`. -/
def Mob.reverse (m : Mob) : Mob :=
  { m with tempo := -m.tempo }

/-- `MushroomMob.__init__`: id "mushroom", tempo -20. -/
def MushroomMob.init : Mob :=
  { id := "mushroom", tempo := -20 }

/-- Joint result of a player-mob collision handler: the updated player and
mob states and whether `world.remove_mob` was called on the mob. -/
structure MobHitOutcome where
  player : Player
  mob : Mob
  mobRemoved : Bool
  deriving DecidableEq, Repr

/-- `MushroomMob.on_hit(event, data)` from `app.py`. `dir` is the value of
`get_collision_direction(self._player, self)` (external `game.util`),
one of "A", "B", "L", "R". Statement order follows the source: in the
"R" branch `change_health(-1)` is called once before `reverse()` and once
after it. -/
def MushroomMob.on_hit (mob : Mob) (player : Player) (dir : String) :
    MobHitOutcome :=
  if mob.id = "mushroom" then
    if dir = "A" then
      { player := player.set_velocity (0, -280), mob := mob,
        mobRemoved := true }
    else if dir = "L" then
      let player := player.set_velocity (-60, 0)
      let player := player.change_health (-1)
      let mob := mob.reverse
      { player := player, mob := mob, mobRemoved := false }
    else if dir = "R" then
      let player := player.set_velocity (60, 0)
      let player := player.change_health (-1)
      let mob := mob.reverse
      let player := player.change_health (-1)
      { player := player, mob := mob, mobRemoved := false }
    else
      { player := player.change_health (-1), mob := mob,
        mobRemoved := false }
  else
    { player := player, mob := mob, mobRemoved := false }

/-- `BounceBlock.on_hit(event, data)` from `app.py`: when the player hits
from Above, `yV = velocity[1] - 280` and the velocity is set to
`(xV, yV)`. -/
def BounceBlock.on_hit (player : Player) (dir : String) : Player :=
  if dir = "A" then
    let velocity := player.velocity
    let xV := velocity.1
    let yV := velocity.2 - 280
    player.set_velocity (xV, yV)
  else
    player

/-- A `Block` as the collision handlers observe it: its id string
(`Block.get_id`, external `game.block` base). -/
structure Block where
  id : String
  deriving DecidableEq, Repr

/-- Result of `MarioApp._handle_mob_collide_block`: updated mob state,
whether `remove_block` / `remove_mob` were called, and the bool returned
to the physics engine. -/
structure MobBlockOutcome where
  mob : Mob
  blockRemoved : Bool
  mobRemoved : Bool
  ret : Bool
  deriving DecidableEq, Repr

/-- `MarioApp._handle_mob_collide_block(mob, block, data, arbiter)`.
`dir` is `get_collision_direction(block, mob)` (external `game.util`).
Every branch falls through to the trailing
`if block.get_id() == "empty_block": return False else: return True`. -/
def handle_mob_collide_block (mob : Mob) (block : Block) (dir : String) :
    MobBlockOutcome :=
  let (mob, blockRemoved, mobRemoved) :=
    if mob.id = "fireball" then
      (mob, block.id == "brick", true)
    else if mob.id = "mushroom" then
      (if dir = "L" ∨ dir = "R" then mob.reverse else mob, false, false)
    else
      (mob, false, false)
  { mob := mob, blockRemoved := blockRemoved, mobRemoved := mobRemoved,
    ret := if block.id = "empty_block" then false else true }

/-- Result of `MarioApp._handle_player_collide_block`: updated player,
the app's `_on_tunnel` flag, whether `block.on_hit` was dispatched, and
the bool returned to the physics engine. -/
structure PlayerBlockOutcome where
  player : Player
  onTunnel : Bool
  onHitInvoked : Bool
  ret : Bool
  deriving DecidableEq, Repr

/-- `MarioApp._handle_player_collide_block(player, block, data, arbiter)`.
`dir` is `get_collision_direction(player, block)` (external `game.util`).
The flag branch's dialog / high-score / level-transition calls go to
external collaborators and are not part of the returned state; the health
restore it performs on an Above-hit is kept. The final `else` dispatches
`block.on_hit` (recorded in `onHitInvoked`; the per-block-type effects are
embedded separately, e.g. `BounceBlock.on_hit`) and returns True. -/
def handle_player_collide_block (player : Player) (block : Block)
    (dir : String) (onTunnel : Bool) : PlayerBlockOutcome :=
  let player := if dir = "A" then player.set_jumping false else player
  let player :=
    if block.id = "flag" ∧ dir = "A" then player.set_health player.maxHealth
    else player
  if block.id = "switch" ∧ player.onSwitch then
    { player := player, onTunnel := onTunnel, onHitInvoked := false,
      ret := false }
  else
    let onTunnel := if block.id = "tunnel" ∧ dir = "A" then true else onTunnel
    if block.id = "empty_block" then
      { player := player, onTunnel := onTunnel, onHitInvoked := false,
        ret := false }
    else
      { player := player, onTunnel := onTunnel, onHitInvoked := true,
        ret := true }

/-- Result of `MarioApp._handle_player_collide_mob`. -/
structure PlayerMobOutcome where
  player : Player
  mob : Mob
  mobRemoved : Bool
  ret : Bool
  deriving DecidableEq, Repr

/-- `MarioApp._handle_player_collide_mob(player, mob, data, arbiter)`:
if the player is not invincible, dispatch `mob.on_hit` (embedded here for
the mushroom mob; the cloud and fireball mobs' `on_hit` live in the
external `game.mob`); otherwise remove the mob. Always returns True. -/
def handle_player_collide_mob (player : Player) (mob : Mob) (dir : String) :
    PlayerMobOutcome :=
  if ¬ player.is_invincible then
    let r := MushroomMob.on_hit mob player dir
    { player := r.player, mob := r.mob, mobRemoved := r.mobRemoved,
      ret := true }
  else
    { player := player, mob := mob, mobRemoved := true, ret := true }

/-- A thing in the world as `Switch.step` observes it: `get_type()`
(4 = block), `get_id()` and `get_position()`. -/
structure Thing where
  ty : Nat
  id : String
  pos : Int × Int
  deriving DecidableEq, Repr

/-- State of a `Switch` block: `_active`, and `_switch_time`, which stays
unassigned (`none`) until the first Above-hit. -/
structure Switch where
  active : Bool
  switchTime : Option Rat
  deriving DecidableEq, Repr

/-- `Switch.__init__`. -/
def Switch.init : Switch :=
  { active := false, switchTime := none }

/-- `Switch.on_hit(event, data)`: on an Above-hit, become active, set the
player's on-switch flag and stamp `_switch_time := now` — also when the
switch is already active, which restarts the 10-second window. -/
def Switch.on_hit (sw : Switch) (player : Player) (dir : String)
    (now : Rat) : Switch × Player :=
  if dir = "A" then
    ({ sw with active := true, switchTime := some now },
      player.set_on_switch true)
  else
    (sw, player)

/-- `Switch.step(time_delta, game_data)`. `now` is `time.time()`;
`thingsInRange` is the list returned by the external
`World.get_things_in_range(world, s_x, s_y, 3 * BLOCK_SIZE)` — everything
within a 3-block radius of the switch. Returns `none` when the Python
code would raise reading the never-assigned `_switch_time`. Replacing a
brick by `Empty()` (or an empty block back by `Block("brick")`) keeps the
thing's position; both are blocks, type 4. -/
def Switch.step (sw : Switch) (player : Player) (now : Rat)
    (thingsInRange : List Thing) : Option (Switch × Player × List Thing) :=
  if player.onSwitch then
    match sw.switchTime with
    | none => none
    | some t0 =>
      if now - t0 < 10 then
        some (sw, player, thingsInRange.map fun th =>
          if th.ty = 4 ∧ th.id = "brick" then { th with id := "empty_block" }
          else th)
      else
        some ({ sw with active := false }, player.set_on_switch false,
          thingsInRange.map fun th =>
            if th.ty = 4 ∧ th.id = "empty_block" then { th with id := "brick" }
            else th)
  else
    some (sw, player, thingsInRange)

/-- One call to a `Player` method, for reasoning about call sequences.
`getTime now` passes the value `time.time()` would return at that call. -/
inductive POp where
  | setHealth (h : Rat)
  | changeHealth (c : Rat)
  | changeScore (c : Rat)
  | changeInv (b : Bool)
  | getTime (now : Rat)
  | setDucking (b : Bool)
  | setOnSwitch (b : Bool)
  deriving DecidableEq, Repr

/-- Apply one call to the player state (the value a `get_time` call
returns is dropped here; `timeResults` collects it). -/
def Player.applyOp (p : Player) : POp → Player
  | POp.setHealth h => p.set_health h
  | POp.changeHealth c => p.change_health c
  | POp.changeScore c => p.change_score c
  | POp.changeInv b => p.change_invincibility b
  | POp.getTime now => (p.get_time now).2
  | POp.setDucking b => p.set_ducking b
  | POp.setOnSwitch b => p.set_on_switch b

/-- Run a sequence of calls left to right. -/
def Player.runOps (p : Player) : List POp → Player
  | [] => p
  | op :: rest => (p.applyOp op).runOps rest

/-- The values returned by the `get_time` calls of a sequence, in order. -/
def Player.timeResults (p : Player) : List POp → List (Option Rat)
  | [] => []
  | POp.getTime now :: rest =>
      (p.get_time now).1 :: (p.get_time now).2.timeResults rest
  | op :: rest => (p.applyOp op).timeResults rest

/-- Position and size a world-insertion call hands to the external
`World`/`WorldBuilder`. -/
structure Placement where
  x : Int
  y : Int
  width : Int
  height : Int
  deriving DecidableEq, Repr

/-- `create_unknown(world, entity_id, x, y)` from `app.py`:
`world.add_thing(Entity(), x * BLOCK_SIZE, y * BLOCK_SIZE,
size=(BLOCK_SIZE, BLOCK_SIZE))`. The placement it passes to the world is
captured; the generic `Entity()` payload carries no state of its own. -/
def create_unknown (x y : Int) : Placement :=
  { x := x * BLOCK_SIZE, y := y * BLOCK_SIZE,
    width := BLOCK_SIZE, height := BLOCK_SIZE }

end Mario

namespace Mario

/-- C2 counterexample: on a fresh player (health = max_health = 20, not
invincible) a single `change_health(1)` call pushes health to 21, strictly
above `max_health` — no clamping happens. -/
theorem change_health_exceeds_max_cx :
    ((mkPlayer "mario" 20).change_health 1).health = 21 ∧
    ¬ ((mkPlayer "mario" 20).change_health 1).health ≤
        (mkPlayer "mario" 20).maxHealth := by
  constructor
  · norm_num [mkPlayer, Player.change_health, Player.is_invincible]
  · norm_num [mkPlayer, Player.change_health, Player.is_invincible]

/-- C2 (amended): health is not clamped. `set_health` assigns exactly the
given value and `change_health` adds exactly the given change whenever the
player is not invincible, so health can leave the interval
`[0, max_health]`. -/
theorem health_unclamped (p : Player) (c h : Rat)
    (hinv : p.invincible = false) :
    (p.change_health c).health = p.health + c ∧
    (p.set_health h).health = h := by
  constructor
  · simp [Player.change_health, Player.is_invincible, hinv]
  · rfl

/-- Witness for `health_unclamped` at a concrete player. -/
theorem health_unclamped_witness :
    ((mkPlayer "mario" 20).change_health (-3)).health =
        (mkPlayer "mario" 20).health + (-3) ∧
    ((mkPlayer "mario" 20).set_health 7).health = 7 :=
  health_unclamped (mkPlayer "mario" 20) (-3) 7 rfl

/-- C3: `Star.collect` sets the invincible flag, and afterwards every
damage event (negative `change_health`, as produced by mob collisions)
leaves health unchanged. -/
theorem star_collect_invincible_blocks_damage (p : Player) (c : Rat)
    (_hc : c < 0) :
    (Star.collect p).invincible = true ∧
    ((Star.collect p).change_health c).health = (Star.collect p).health := by
  refine ⟨rfl, ?_⟩
  simp [Star.collect, Player.change_health, Player.is_invincible,
    Player.change_invincibility]

/-- Witness for `star_collect_invincible_blocks_damage`: a concrete
mushroom-style damage event of -1 right after picking up a star. -/
theorem star_collect_invincible_blocks_damage_witness :
    (Star.collect (mkPlayer "mario" 20)).invincible = true ∧
    ((Star.collect (mkPlayer "mario" 20)).change_health (-1)).health =
      (Star.collect (mkPlayer "mario" 20)).health :=
  star_collect_invincible_blocks_damage (mkPlayer "mario" 20) (-1)
    (by norm_num)

/-- C10: while invincible, `change_health` is a no-op for every change
value, positive as well as negative — in particular the death-recovery
call `change_health(max_health)` made by `MarioApp.step` restores
nothing. -/
theorem invincible_change_health_noop (p : Player) (c : Rat)
    (hinv : p.invincible = true) :
    (p.change_health c).health = p.health ∧
    (p.change_health p.maxHealth).health = p.health := by
  constructor <;>
    simp [Player.change_health, Player.is_invincible, hinv]

/-- C1 counterexample: a non-invincible player with health 3 hit by a
mushroom from the Right loses 2 health (two `change_health(-1)` calls in
the "R" branch), ending at 1, not at 3 - 1 = 2 as "damages the player by
exactly 1" requires. -/
theorem mushroom_hit_right_double_damage_cx :
    (MushroomMob.on_hit MushroomMob.init
        ((mkPlayer "mario" 20).set_health 3) "R").player.health = 1 ∧
    (MushroomMob.on_hit MushroomMob.init
        ((mkPlayer "mario" 20).set_health 3) "R").player.health ≠
      ((mkPlayer "mario" 20).set_health 3).health - 1 := by
  constructor
  · simp [MushroomMob.on_hit, MushroomMob.init, mkPlayer,
      Player.set_health, Player.set_velocity, Player.change_health,
      Player.is_invincible]
    norm_num
  · simp [MushroomMob.on_hit, MushroomMob.init, mkPlayer,
      Player.set_health, Player.set_velocity, Player.change_health,
      Player.is_invincible]
    norm_num

/-- C1 (amended): for a non-invincible player, a mushroom hit from the
Left damages by exactly 1 with knockback velocity (-60, 0) and reverses
the mob's tempo sign; a hit from the Right damages by exactly 2 (the "R"
branch calls `change_health(-1)` twice) with knockback velocity (60, 0)
and also reverses the tempo sign. -/
theorem mushroom_hit_side_effects (p : Player) (m : Mob)
    (hinv : p.invincible = false) (hm : m.id = "mushroom") :
    ((MushroomMob.on_hit m p "L").player.health = p.health - 1 ∧
      (MushroomMob.on_hit m p "L").player.velocity = (-60, 0) ∧
      (MushroomMob.on_hit m p "L").mob.tempo = -m.tempo) ∧
    ((MushroomMob.on_hit m p "R").player.health = p.health - 2 ∧
      (MushroomMob.on_hit m p "R").player.velocity = (60, 0) ∧
      (MushroomMob.on_hit m p "R").mob.tempo = -m.tempo) := by
  refine ⟨⟨?_, ?_, ?_⟩, ⟨?_, ?_, ?_⟩⟩ <;>
    simp [MushroomMob.on_hit, hm, Player.set_velocity, Player.change_health,
      Player.is_invincible, hinv, Mob.reverse] <;>
    ring

/-- Witness for `mushroom_hit_side_effects` at a concrete player and the
freshly constructed mushroom mob. -/
theorem mushroom_hit_side_effects_witness :
    ((MushroomMob.on_hit MushroomMob.init (mkPlayer "mario" 20) "L").player.health =
        (mkPlayer "mario" 20).health - 1 ∧
      (MushroomMob.on_hit MushroomMob.init (mkPlayer "mario" 20) "L").player.velocity = (-60, 0) ∧
      (MushroomMob.on_hit MushroomMob.init (mkPlayer "mario" 20) "L").mob.tempo =
        -MushroomMob.init.tempo) ∧
    ((MushroomMob.on_hit MushroomMob.init (mkPlayer "mario" 20) "R").player.health =
        (mkPlayer "mario" 20).health - 2 ∧
      (MushroomMob.on_hit MushroomMob.init (mkPlayer "mario" 20) "R").player.velocity = (60, 0) ∧
      (MushroomMob.on_hit MushroomMob.init (mkPlayer "mario" 20) "R").mob.tempo =
        -MushroomMob.init.tempo) :=
  mushroom_hit_side_effects (mkPlayer "mario" 20) MushroomMob.init rfl rfl

/-- C7 counterexample: two players identical up to y-velocity (0 vs 100)
leave a BounceBlock Above-hit with different y-velocities (-280 vs -180),
so the resulting y-velocity does depend on the y-velocity at impact — the
block adds an impulse instead of overriding. -/
theorem bounce_depends_on_velocity_cx :
    (BounceBlock.on_hit ((mkPlayer "mario" 20).set_velocity (0, 0)) "A").velocity.2 = -280 ∧
    (BounceBlock.on_hit ((mkPlayer "mario" 20).set_velocity (0, 100)) "A").velocity.2 = -180 ∧
    (BounceBlock.on_hit ((mkPlayer "mario" 20).set_velocity (0, 0)) "A").velocity.2 ≠
      (BounceBlock.on_hit ((mkPlayer "mario" 20).set_velocity (0, 100)) "A").velocity.2 := by
  refine ⟨?_, ?_, ?_⟩ <;>
    norm_num [BounceBlock.on_hit, Player.set_velocity, mkPlayer]

/-- C7 (amended): an Above-hit on a BounceBlock subtracts 280 from the
player's current y-velocity (a fixed upward impulse added to the velocity
the player had at impact) and keeps the x-velocity. -/
theorem bounce_adds_impulse (p : Player) :
    (BounceBlock.on_hit p "A").velocity = (p.velocity.1, p.velocity.2 - 280) := by
  simp [BounceBlock.on_hit, Player.set_velocity]

/-- C8: the world-builder fallback `create_unknown` places the generic
placeholder entity at pixel coordinates (x * 16, y * 16) — the grid cell
scaled by `BLOCK_SIZE = 2 ^ 4` — with size 16 x 16. -/
theorem create_unknown_placement (x y : Int) :
    create_unknown x y = { x := x * 16, y := y * 16, width := 16, height := 16 } := by
  norm_num [create_unknown, BLOCK_SIZE]

/-- Witness for `invincible_change_health_noop`: an invincible player at
health 0 gains nothing from the death-recovery `change_health(max_health)`. -/
theorem invincible_change_health_noop_witness :
    ((((mkPlayer "mario" 5).set_health 0).change_invincibility true).change_health 5).health =
      (((mkPlayer "mario" 5).set_health 0).change_invincibility true).health ∧
    ((((mkPlayer "mario" 5).set_health 0).change_invincibility true).change_health
        (((mkPlayer "mario" 5).set_health 0).change_invincibility true).maxHealth).health =
      (((mkPlayer "mario" 5).set_health 0).change_invincibility true).health :=
  invincible_change_health_noop
    (((mkPlayer "mario" 5).set_health 0).change_invincibility true) 5 rfl

/-- Any single call other than `change_invincibility(True)` keeps a clear
`_pass` flag clear and leaves `_start_time` untouched. -/
theorem applyOp_preserves_stamp (p : Player) (op : POp)
    (hpass : p.passFlag = false) (hop : op ≠ POp.changeInv true) :
    (p.applyOp op).passFlag = false ∧ (p.applyOp op).startTime = p.startTime := by
  cases op with
  | setHealth h => simp [Player.applyOp, Player.set_health, hpass]
  | changeHealth c =>
      cases hI : p.invincible <;>
        simp [Player.applyOp, Player.change_health, Player.is_invincible, hI,
          hpass]
  | changeScore c => simp [Player.applyOp, Player.change_score, hpass]
  | changeInv b =>
      cases b
      · simp [Player.applyOp, Player.change_invincibility]
      · exact absurd rfl hop
  | getTime now => simp [Player.applyOp, Player.get_time, hpass]
  | setDucking b => simp [Player.applyOp, Player.set_ducking, hpass]
  | setOnSwitch b => simp [Player.applyOp, Player.set_on_switch, hpass]

/-- Once `_start_time` holds `t` and `_pass` is clear, every `get_time`
call in a sequence free of `change_invincibility(True)` returns `t`. -/
theorem timeResults_stamped (t : Rat) :
    ∀ (ops : List POp) (p : Player), p.passFlag = false →
      p.startTime = some t → POp.changeInv true ∉ ops →
      ∀ r ∈ p.timeResults ops, r = some t := by
  intro ops
  induction ops with
  | nil => intro p _ _ _ r hr; simp [Player.timeResults] at hr
  | cons op rest ih =>
    intro p hpass hstart hmem r hr
    have hop : op ≠ POp.changeInv true := by
      intro h
      exact hmem (h ▸ List.mem_cons_self _ _)
    have hrest : POp.changeInv true ∉ rest := fun h =>
      hmem (List.mem_cons_of_mem _ h)
    have hpres := applyOp_preserves_stamp p op hpass hop
    cases op with
    | getTime now =>
      rw [Player.timeResults, Player.get_time] at hr
      simp only [hpass, Bool.false_eq_true, if_false, List.mem_cons] at hr
      rcases hr with h | h
      · rw [h, hstart]
      · exact ih p hpass hstart hrest r h
    | setHealth h' =>
      simp only [Player.timeResults] at hr
      exact ih _ hpres.1 (hpres.2.trans hstart) hrest r hr
    | changeHealth c =>
      simp only [Player.timeResults] at hr
      exact ih _ hpres.1 (hpres.2.trans hstart) hrest r hr
    | changeScore c =>
      simp only [Player.timeResults] at hr
      exact ih _ hpres.1 (hpres.2.trans hstart) hrest r hr
    | changeInv b =>
      simp only [Player.timeResults] at hr
      exact ih _ hpres.1 (hpres.2.trans hstart) hrest r hr
    | setDucking b =>
      simp only [Player.timeResults] at hr
      exact ih _ hpres.1 (hpres.2.trans hstart) hrest r hr
    | setOnSwitch b =>
      simp only [Player.timeResults] at hr
      exact ih _ hpres.1 (hpres.2.trans hstart) hrest r hr

/-- C4: the invincibility timestamp is captured lazily.
`change_invincibility(True)` itself leaves `_start_time` untouched (the
moment of star pickup stamps nothing); the first `get_time` call after it
returns its own query time `t` (stamping it); and every later `get_time`
call in any call sequence containing no further transition into
invincibility returns that same stamped `t`. -/
theorem invincibility_time_lazy_stamp (p : Player) (t : Rat)
    (ops : List POp) (hops : POp.changeInv true ∉ ops) :
    (p.change_invincibility true).startTime = p.startTime ∧
    ((p.change_invincibility true).get_time t).1 = some t ∧
    ∀ r ∈ ((p.change_invincibility true).get_time t).2.timeResults ops,
      r = some t := by
  refine ⟨rfl, rfl, ?_⟩
  exact timeResults_stamped t ops _ rfl rfl hops

/-- Witness for `invincibility_time_lazy_stamp`: activation, a first query
at time 5, then further queries at times 7 and 9 interleaved with a
transition out of invincibility — all queries report 5. -/
theorem invincibility_time_lazy_stamp_witness :
    ((mkPlayer "mario" 20).change_invincibility true).startTime =
        (mkPlayer "mario" 20).startTime ∧
    (((mkPlayer "mario" 20).change_invincibility true).get_time 5).1 = some 5 ∧
    ∀ r ∈ (((mkPlayer "mario" 20).change_invincibility true).get_time 5).2.timeResults
        [POp.getTime 7, POp.changeInv false, POp.getTime 9], r = some 5 :=
  invincibility_time_lazy_stamp (mkPlayer "mario" 20) 5
    [POp.getTime 7, POp.changeInv false, POp.getTime 9] (by simp)

/-- A call sequence free of `change_invincibility(True)` never assigns
`_start_time` on a player whose `_pass` flag is clear and whose
`_start_time` is unassigned. -/
theorem runOps_no_stamp :
    ∀ (ops : List POp) (p : Player), p.passFlag = false →
      p.startTime = none → POp.changeInv true ∉ ops →
      (p.runOps ops).passFlag = false ∧ (p.runOps ops).startTime = none := by
  intro ops
  induction ops with
  | nil => intro p h1 h2 _; exact ⟨h1, h2⟩
  | cons op rest ih =>
    intro p h1 h2 hmem
    have hop : op ≠ POp.changeInv true := by
      intro h
      exact hmem (h ▸ List.mem_cons_self _ _)
    have hrest : POp.changeInv true ∉ rest := fun h =>
      hmem (List.mem_cons_of_mem _ h)
    have hpres := applyOp_preserves_stamp p op h1 hop
    rw [Player.runOps]
    exact ih (p.applyOp op) hpres.1 (hpres.2.trans h2) hrest

/-- C9 counterexample to "the error branch is reachable exactly when no
transition into invincibility has ever occurred": after
`change_invincibility(True)` followed by `change_invincibility(False)`,
a transition into invincibility has occurred, yet `get_time` still hits
the error branch (returns `none`, the never-assigned `_start_time`). -/
theorem get_time_error_after_cancelled_invincibility_cx :
    POp.changeInv true ∈ [POp.changeInv true, POp.changeInv false] ∧
    (((mkPlayer "mario" 20).runOps
        [POp.changeInv true, POp.changeInv false]).get_time 5).1 = none := by
  constructor
  · simp
  · rfl

/-- C9 (amended): on a freshly constructed player, `get_time` fails
(reads the never-assigned `_start_time`, modelled as returning `none`)
after every call sequence that contains no `change_invincibility(True)` —
in particular on a fresh player it always fails. The "exactly when" of
the original claim is dropped: the error branch is also reachable after a
transition into invincibility that is cancelled before any query (see the
counterexample). -/
theorem get_time_fails_without_activation (name : String) (mh : Rat)
    (ops : List POp) (now : Rat) (hops : POp.changeInv true ∉ ops) :
    (((mkPlayer name mh).runOps ops).get_time now).1 = none := by
  have h := runOps_no_stamp ops (mkPlayer name mh) rfl rfl hops
  simp [Player.get_time, h.1, h.2]

/-- Witness for `get_time_fails_without_activation`: a fresh player that
took damage, had invincibility explicitly set to False and was queried
once still errors on the next `get_time`. -/
theorem get_time_fails_without_activation_witness :
    (((mkPlayer "luigi" 5).runOps
        [POp.changeHealth (-1), POp.changeInv false, POp.getTime 3]).get_time 8).1 = none :=
  get_time_fails_without_activation "luigi" 5
    [POp.changeHealth (-1), POp.changeInv false, POp.getTime 3] 8 (by simp)

/-- C6: a contact with a block whose id is "empty_block" never generates a
physical collision response — both the player-block and the mob-block
handlers return False for it, for every player, mob, collision direction
and tunnel state (and the player-block handler does not even dispatch
`block.on_hit`). -/
theorem empty_block_handlers_return_false (player : Player) (mob : Mob)
    (dir dir' : String) (onTunnel : Bool) :
    (handle_player_collide_block player { id := "empty_block" } dir onTunnel).ret = false ∧
    (handle_player_collide_block player { id := "empty_block" } dir onTunnel).onHitInvoked = false ∧
    (handle_mob_collide_block mob { id := "empty_block" } dir').ret = false := by
  refine ⟨?_, ?_, ?_⟩
  · simp [handle_player_collide_block]
  · simp [handle_player_collide_block]
  · simp only [handle_mob_collide_block]
    split <;> simp_all

/-- C5: after an Above-hit at time `t0` the switch is active with its
window stamped at `t0` (also when re-activated: the 10-second window
restarts) and the player is on-switch. While `now - t0 < 10`, stepping
replaces every brick (type 4, id "brick") among the things within the
3-block-radius query by an Empty block at the same position, leaving
everything else unchanged. Once `now - t0 ≥ 10`, stepping reverts every
Empty block in range to a brick Block, deactivates the switch and clears
the player's on-switch flag. -/
theorem switch_activation_step_behavior (sw : Switch) (p : Player)
    (t0 now : Rat) (things : List Thing) :
    ((Switch.on_hit sw p "A" t0).1.active = true ∧
      (Switch.on_hit sw p "A" t0).1.switchTime = some t0 ∧
      (Switch.on_hit sw p "A" t0).2.onSwitch = true) ∧
    (now - t0 < 10 →
      Switch.step (Switch.on_hit sw p "A" t0).1 (Switch.on_hit sw p "A" t0).2
          now things =
        some ((Switch.on_hit sw p "A" t0).1, (Switch.on_hit sw p "A" t0).2,
          things.map fun th =>
            if th.ty = 4 ∧ th.id = "brick" then { th with id := "empty_block" }
            else th)) ∧
    (10 ≤ now - t0 →
      ∃ sw2 p2,
        Switch.step (Switch.on_hit sw p "A" t0).1 (Switch.on_hit sw p "A" t0).2
            now things =
          some (sw2, p2, things.map fun th =>
            if th.ty = 4 ∧ th.id = "empty_block" then { th with id := "brick" }
            else th) ∧
        sw2.active = false ∧ p2.onSwitch = false) := by
  refine ⟨⟨rfl, rfl, rfl⟩, ?_, ?_⟩
  · intro hlt
    simp [Switch.on_hit, Switch.step, Player.set_on_switch, hlt]
  · intro hge
    refine ⟨{ active := false, switchTime := some t0 },
      (p.set_on_switch true).set_on_switch false, ?_, rfl, rfl⟩
    simp [Switch.on_hit, Switch.step, Player.set_on_switch, not_lt.mpr hge]

/-- Witness for `switch_activation_step_behavior`: a fresh switch hit at
time 0 over a two-thing range (one brick, one cube); stepping at time 3
swaps the brick for an empty block, stepping at time 12 swaps it back and
deactivates. -/
theorem switch_activation_step_behavior_witness :
    ((Switch.on_hit Switch.init (mkPlayer "mario" 20) "A" 0).1.active = true ∧
      (Switch.on_hit Switch.init (mkPlayer "mario" 20) "A" 0).1.switchTime = some 0 ∧
      (Switch.on_hit Switch.init (mkPlayer "mario" 20) "A" 0).2.onSwitch = true) ∧
    Switch.step (Switch.on_hit Switch.init (mkPlayer "mario" 20) "A" 0).1
        (Switch.on_hit Switch.init (mkPlayer "mario" 20) "A" 0).2 3
        [⟨4, "brick", (0, 0)⟩, ⟨4, "cube", (16, 0)⟩] =
      some ((Switch.on_hit Switch.init (mkPlayer "mario" 20) "A" 0).1,
        (Switch.on_hit Switch.init (mkPlayer "mario" 20) "A" 0).2,
        [⟨4, "brick", (0, 0)⟩, ⟨4, "cube", (16, 0)⟩].map fun th =>
          if th.ty = 4 ∧ th.id = "brick" then { th with id := "empty_block" }
          else th) ∧
    ∃ sw2 p2,
      Switch.step (Switch.on_hit Switch.init (mkPlayer "mario" 20) "A" 0).1
          (Switch.on_hit Switch.init (mkPlayer "mario" 20) "A" 0).2 12
          [⟨4, "brick", (0, 0)⟩, ⟨4, "cube", (16, 0)⟩] =
        some (sw2, p2,
          [⟨4, "brick", (0, 0)⟩, ⟨4, "cube", (16, 0)⟩].map fun th =>
            if th.ty = 4 ∧ th.id = "empty_block" then { th with id := "brick" }
            else th) ∧
      sw2.active = false ∧ p2.onSwitch = false :=
  ⟨(switch_activation_step_behavior Switch.init (mkPlayer "mario" 20) 0 3
      [⟨4, "brick", (0, 0)⟩, ⟨4, "cube", (16, 0)⟩]).1,
    (switch_activation_step_behavior Switch.init (mkPlayer "mario" 20) 0 3
      [⟨4, "brick", (0, 0)⟩, ⟨4, "cube", (16, 0)⟩]).2.1 (by norm_num),
    (switch_activation_step_behavior Switch.init (mkPlayer "mario" 20) 0 12
      [⟨4, "brick", (0, 0)⟩, ⟨4, "cube", (16, 0)⟩]).2.2 (by norm_num)⟩

end Mario
